import Mathlib

/-
Verification development for the STK-push payment relay.

Shallow embedding of the four JavaScript source files:
  * `Server`  — src/server.js (payments store, /stkpush with polling,
                /payments/:id/check-status),
  * `Part0`   — first file of src/unnamed/part_000 (balances store,
                /stkpush with polling and credit-on-complete,
                /transaction/status),
  * `Loan`    — second file of src/unnamed/part_000 (receipts store,
                /callback).

Modelling conventions:
  * amounts are integers (the JavaScript coerces via Number);
  * JavaScript truthiness of optional request fields is modelled by
    `strFalsy` / `intFalsy` (absent, empty string and zero are falsy);
  * external HTTP calls (axios) are oracles passed to the handler: a
    thrown network error is `Except.error ()`, a response body is
    `Except.ok r`; the poll loop receives one oracle value per attempt
    index;
  * timestamp fields (`created_at`, `updated_at`) carry no information
    relevant to any property here and are omitted;
  * in-place mutation of a record held in a JavaScript array is modelled
    by replacing the record at its position in the list.
-/

/-- JavaScript truthiness test for an optional string field:
`undefined` and the empty string are falsy. -/
def strFalsy : Option String → Bool
  | none => true
  | some s => s = ""

/-- JavaScript truthiness test for an optional numeric field:
`undefined` and `0` are falsy. -/
def intFalsy : Option Int → Bool
  | none => true
  | some n => n = 0

namespace Gw

/-- Body of a gateway status.php response (`queryStatus`):
`success` reports whether the status check itself worked; `status` is the
gateway-reported payment status string when present. -/
structure StatusResult where
  success : Bool
  status : Option String := none
  transaction_code : Option String := none
  message : Option String := none
deriving DecidableEq, Repr

/-- Body of a gateway stkpush.php response (`initiate`). -/
structure InitResult where
  success : Bool
  checkout_request_id : Option String := none
  message : Option String := none
deriving DecidableEq, Repr

end Gw

namespace Server

/-- Payment status values used by src/server.js. -/
inductive PayStatus
  | pending
  | completed
  | failed
  | timeout
deriving DecidableEq, Repr

/-- A record of the in-memory `payments` array of src/server.js. -/
structure Payment where
  id : String
  phone : String
  amount : Int
  reference : String
  description : String
  status : PayStatus
  checkout_request_id : Option String
  transaction_code : Option String
  error_message : Option String
deriving DecidableEq, Repr

/-- The regular expression `^2547\d{8}$` of src/server.js line 83:
exactly the four characters 2547 followed by eight digits (stated over
the character list of the string). -/
def phoneMatches2547 (phone : String) : Bool :=
  phone.toList.length = 12 && phone.toList.take 4 = ['2', '5', '4', '7'] &&
    (phone.toList.drop 4).all Char.isDigit

/-- `checkPaymentStatus` of src/server.js lines 39-57: the axios call is
the oracle argument; a thrown error is caught and mapped to a
`success:false` body with message "Status check failed". -/
def checkPaymentStatus (call : Except Unit Gw.StatusResult) : Gw.StatusResult :=
  match call with
  | .ok r => r
  | .error _ => { success := false, message := some "Status check failed" }

/-- What the polling-loop body of src/server.js lines 160-198 does with
one status result: finish as completed, finish as failed, or fall through
to the next attempt. -/
inductive StepAction
  | finishCompleted
  | finishFailed
  | continueLoop
deriving DecidableEq, Repr

/-- Branch selection of the loop body (src/server.js lines 163-194):
`success && status=="completed"` finishes completed,
`success && status=="failed"` finishes failed, everything else
(including `success:false`) falls through to the next attempt. -/
def stepAction (r : Gw.StatusResult) : StepAction :=
  if r.success ∧ r.status = some "completed" then .finishCompleted
  else if r.success ∧ r.status = some "failed" then .finishFailed
  else .continueLoop

/-- Observable events of the polling loop: one status query per attempt
index, and the `setTimeout(..., 5000)` delay (in seconds). -/
inductive PollEvent
  | query (attempt : Nat)
  | delay (seconds : Nat)
deriving DecidableEq, Repr

/-- How the polling loop ended. -/
inductive PollOutcome
  | completed (r : Gw.StatusResult)
  | failed (r : Gw.StatusResult)
  | timedOut
deriving DecidableEq, Repr

/-- Result of running the polling loop: the mutated payment record, the
way the loop ended, the `statusResult` variable at exit, and the event
trace. -/
structure PollResult where
  payment : Payment
  outcome : PollOutcome
  lastStatus : Option Gw.StatusResult
  events : List PollEvent
deriving DecidableEq, Repr

/-- The `while (attempt < maxAttempts)` polling loop of src/server.js
lines 156-203, with `fuel = maxAttempts - attempt` remaining attempts.
Each attempt queries the oracle at the current attempt index; a terminal
result mutates the payment and exits; otherwise the loop sleeps 5 seconds
and retries.  Exhausted fuel is the timeout epilogue of lines 200-203. -/
def pollAux (g : Nat → Except Unit Gw.StatusResult) (p : Payment) (attempt : Nat) :
    Nat → Option Gw.StatusResult → PollResult
  | 0, last =>
    { payment := { p with status := .timeout,
                          error_message := some "Payment status check timeout" },
      outcome := .timedOut, lastStatus := last, events := [] }
  | fuel + 1, _last =>
    let r := checkPaymentStatus (g attempt)
    match stepAction r with
    | .finishCompleted =>
      { payment := { p with status := .completed, transaction_code := r.transaction_code },
        outcome := .completed r, lastStatus := some r, events := [.query attempt] }
    | .finishFailed =>
      { payment := { p with status := .failed,
                            error_message := some (r.message.getD "Payment failed") },
        outcome := .failed r, lastStatus := some r, events := [.query attempt] }
    | .continueLoop =>
      let rest := pollAux g p (attempt + 1) fuel (some r)
      { rest with events := .query attempt :: .delay 5 :: rest.events }

/-- Number of status queries in a poll-event trace. -/
def countQueries : List PollEvent → Nat
  | [] => 0
  | .query _ :: rest => countQueries rest + 1
  | .delay _ :: rest => countQueries rest

/-- The full event trace of a poll run that never sees a terminal
result: one query per attempt, each followed by the fixed 5-second
delay. -/
def fullPollEvents : Nat → Nat → List PollEvent
  | _, 0 => []
  | attempt, fuel + 1 => .query attempt :: .delay 5 :: fullPollEvents (attempt + 1) fuel

/-- Request body of POST /stkpush (src/server.js line 73), with the
defaulted description. -/
structure StkRequest where
  phone : Option String := none
  amount : Option Int := none
  description : String := "Payment via M-Pesa"
deriving DecidableEq, Repr

/-- Response sent by the /stkpush handler (fields relevant to the
claims). -/
structure StkResponse where
  httpStatus : Nat
  success : Bool
  message : String
  payment_id : Option String := none
  transaction_code : Option String := none
  lastStatus : Option Gw.StatusResult := none
deriving DecidableEq, Repr

/-- Result of one /stkpush request: final payments store, response,
whether the initiate call was issued, and the polling event trace. -/
structure StkResult where
  store : List Payment
  response : StkResponse
  initiateCalled : Bool
  events : List PollEvent
deriving DecidableEq, Repr

/-- The payment record created at src/server.js lines 101-113, in status
pending with null checkout_request_id, transaction_code and
error_message. -/
def mkPendingPayment (paymentId phone : String) (amount : Int)
    (reference description : String) : Payment :=
  { id := paymentId, phone := phone, amount := amount, reference := reference,
    description := description, status := .pending,
    checkout_request_id := none, transaction_code := none, error_message := none }

/-- Body of the POST /stkpush handler after validation has passed
(src/server.js lines 97-214): push the pending record, issue the
initiate call (a thrown call lands in the catch block of lines 216-223
as HTTP 500, the record still pending), mark the record failed on a
rejected initiate, and otherwise store the checkout request id and run
the polling loop. -/
def stkpushCore (phone : String) (amount : Int) (paymentId reference description : String)
    (init : Except Unit Gw.InitResult) (g : Nat → Except Unit Gw.StatusResult)
    (store : List Payment) : StkResult :=
  let payment := mkPendingPayment paymentId phone amount reference description
  match init with
  | .error _ =>
    { store := store ++ [payment],
      response := { httpStatus := 500, success := false,
                    message := "Internal server error" },
      initiateCalled := true, events := [] }
  | .ok ir =>
    if ¬ ir.success then
      let failedP := { payment with
        status := .failed,
        error_message := some (ir.message.getD "STK Push initiation failed") }
      { store := store ++ [failedP],
        response := { httpStatus := 400, success := false,
                      message := ir.message.getD "STK Push initiation failed",
                      payment_id := some paymentId },
        initiateCalled := true, events := [] }
    else
      let p2 := { payment with checkout_request_id := ir.checkout_request_id }
      let pr := pollAux g p2 0 24 none
      let resp : StkResponse :=
        match pr.outcome with
        | .completed r =>
          { httpStatus := 200, success := true,
            message := "Payment completed successfully",
            payment_id := some paymentId, transaction_code := r.transaction_code }
        | .failed _ =>
          { httpStatus := 200, success := false,
            message := pr.payment.error_message.getD "Payment failed",
            payment_id := some paymentId }
        | .timedOut =>
          { httpStatus := 200, success := false,
            message := "Payment status check timeout. Please check manually.",
            payment_id := some paymentId, lastStatus := pr.lastStatus }
      { store := store ++ [pr.payment], response := resp,
        initiateCalled := true, events := pr.events }

/-- The POST /stkpush handler of src/server.js lines 71-224.
`paymentId` and `reference` stand for the generated identifiers, `init`
for the axios stkpush.php call (error = thrown), `g` for the per-attempt
status.php calls, `store` for the `payments` array.  The three
validation checks of lines 76-95 run first, each returning HTTP 400
before any record is created or any gateway call is made; the rest of
the handler is `stkpushCore`. -/
def stkpush (req : StkRequest) (paymentId reference : String)
    (init : Except Unit Gw.InitResult) (g : Nat → Except Unit Gw.StatusResult)
    (store : List Payment) : StkResult :=
  if strFalsy req.phone || intFalsy req.amount then
    { store := store,
      response := { httpStatus := 400, success := false,
                    message := "Phone and amount are required" },
      initiateCalled := false, events := [] }
  else if ¬ phoneMatches2547 (req.phone.getD "") then
    { store := store,
      response := { httpStatus := 400, success := false,
                    message := "Invalid phone number format. Use 2547XXXXXXXX" },
      initiateCalled := false, events := [] }
  else if req.amount.getD 0 ≤ 0 ∨ req.amount.getD 0 > 300000 then
    { store := store,
      response := { httpStatus := 400, success := false,
                    message := "Amount must be between 1 and 300,000" },
      initiateCalled := false, events := [] }
  else
    stkpushCore (req.phone.getD "") (req.amount.getD 0) paymentId reference
      req.description init g store

/-- Status application of the manual check-status route, src/server.js
lines 346-356: a successful completed report sets status completed (and
the transaction code), a successful failed report sets status failed (and
the error message); anything else leaves the record untouched.  There is
no guard on the current status of the record. -/
def applyStatusResult (p : Payment) (r : Gw.StatusResult) : Payment :=
  match stepAction r with
  | .finishCompleted =>
    { p with status := .completed, transaction_code := r.transaction_code }
  | .finishFailed =>
    { p with status := .failed,
             error_message := some (r.message.getD "Payment failed") }
  | .continueLoop => p

/-- Replace the first record with the given id (the JavaScript `find`
returns the first match and the handler mutates that object in place). -/
def updateById (id : String) (p2 : Payment) : List Payment → List Payment
  | [] => []
  | q :: rest => if q.id = id then p2 :: rest else q :: updateById id p2 rest

/-- Response of the POST /payments/:id/check-status route. -/
structure CheckStatusResult where
  store : List Payment
  httpStatus : Nat
  success : Bool
  payment : Option Payment
  status_check_result : Option Gw.StatusResult
deriving DecidableEq, Repr

/-- The POST /payments/:id/check-status handler of src/server.js lines
325-371: 404 when the id is unknown, 400 when the record has no
checkout_request_id, otherwise one status query whose result is applied
by `applyStatusResult` and a 200 response. -/
def checkStatusRoute (id : String) (call : Except Unit Gw.StatusResult)
    (store : List Payment) : CheckStatusResult :=
  match store.find? (fun p => p.id = id) with
  | none =>
    { store := store, httpStatus := 404, success := false,
      payment := none, status_check_result := none }
  | some payment =>
    if strFalsy payment.checkout_request_id then
      { store := store, httpStatus := 400, success := false,
        payment := none, status_check_result := none }
    else
      let r := checkPaymentStatus call
      let p2 := applyStatusResult payment r
      { store := updateById id p2 store, httpStatus := 200, success := true,
        payment := some p2, status_check_result := some r }

end Server

namespace Part0

/-- The in-memory `balances` object of src/unnamed/part_000 line 28,
keyed by phone.  An absent key and a stored `0` are indistinguishable to
every read in the file (`!balances[phone]` and `balances[phone] || 0`),
so the store is modelled as a total function defaulting to zero. -/
abbrev Balances : Type := String → Int

/-- `creditBalance` of src/unnamed/part_000 lines 31-35: initialise a
missing entry to zero, then add `Number(amount)` to it. -/
def creditBalance (balances : Balances) (phone : String) (amount : Int) : Balances :=
  fun q => if q = phone then balances phone + amount else balances q

/-- `getBalance` of src/unnamed/part_000 lines 37-39
(`balances[phone] || 0`). -/
def getBalance (balances : Balances) (phone : String) : Int :=
  balances phone

/-- Request body of POST /transaction/status (src/unnamed/part_000
line 157). -/
structure TxStatusRequest where
  checkout_request_id : Option String := none
  phone : Option String := none
  amount : Option Int := none
deriving DecidableEq, Repr

/-- Response of the POST /transaction/status route (fields relevant to
the claims). -/
structure TxStatusResponse where
  httpStatus : Nat
  success : Bool
  message : String
  status : Option String := none
  transaction_code : Option String := none
  balance : Option Int := none
deriving DecidableEq, Repr

/-- The POST /transaction/status handler of src/unnamed/part_000 lines
155-202.  `call` is the axios status.php call (error = thrown, caught by
the outer catch as HTTP 500).  When the status check succeeds, reports
`completed` and both `phone` and `amount` are truthy, the balance is
credited with the client-supplied amount; the route touches no other
state.  The response field `balance` is `phone ? getBalance(phone) :
undefined` evaluated after the credit; in the credit branch the phone is
necessarily truthy, so the two branches below spell that conditional
out. -/
def transactionStatus (req : TxStatusRequest) (call : Except Unit Gw.StatusResult)
    (balances : Balances) : Balances × TxStatusResponse :=
  if strFalsy req.checkout_request_id then
    (balances, { httpStatus := 400, success := false,
                 message := "checkout_request_id is required" })
  else
    match call with
    | .error _ =>
      (balances, { httpStatus := 500, success := false,
                   message := "Internal server error" })
    | .ok statusResult =>
      if statusResult.success then
        if statusResult.status = some "completed" ∧
            ¬ strFalsy req.phone ∧ ¬ intFalsy req.amount then
          (creditBalance balances (req.phone.getD "") (req.amount.getD 0),
           { httpStatus := 200, success := true,
             status := statusResult.status,
             transaction_code := statusResult.transaction_code,
             balance := some (getBalance
               (creditBalance balances (req.phone.getD "") (req.amount.getD 0))
               (req.phone.getD "")),
             message := "Transaction is " ++ (statusResult.status.getD "undefined") })
        else
          (balances,
           { httpStatus := 200, success := true,
             status := statusResult.status,
             transaction_code := statusResult.transaction_code,
             balance := if ¬ strFalsy req.phone then
                          some (getBalance balances (req.phone.getD ""))
                        else none,
             message := "Transaction is " ++ (statusResult.status.getD "undefined") })
      else
        (balances, { httpStatus := 200, success := false,
                     message := "Failed to check transaction status" })

/-- Request body of POST /stkpush in src/unnamed/part_000 line 46 (this
variant destructures only phone and amount). -/
structure StkRequest where
  phone : Option String := none
  amount : Option Int := none
deriving DecidableEq, Repr

/-- Response of this variant of the /stkpush route (fields relevant to
the claims). -/
structure StkResponse where
  httpStatus : Nat
  success : Bool
  message : String
  status : Option String := none
  transaction_code : Option String := none
  balance : Option Int := none
  lastStatus : Option Gw.StatusResult := none
deriving DecidableEq, Repr

/-- Result of one /stkpush request in this variant: final balances,
response, and the number of status.php queries issued. -/
structure StkResult where
  balances : Balances
  response : StkResponse
  statusQueries : Nat

/-- The polling loop of src/unnamed/part_000 lines 82-144.  Unlike
src/server.js, the status.php call here has no per-attempt catch: a
thrown call propagates to the outer catch (HTTP 500).  A completed
result credits the balance with the request amount before responding. -/
def pollLoop (g : Nat → Except Unit Gw.StatusResult) (phone : String) (amount : Int)
    (balances : Balances) (attempt : Nat) :
    Nat → Option Gw.StatusResult → StkResult
  | 0, last =>
    { balances := balances,
      response := { httpStatus := 200, success := false,
                    message := "Payment status check timeout - still pending",
                    status := some "pending", lastStatus := last },
      statusQueries := 0 }
  | fuel + 1, _last =>
    match g attempt with
    | .error _ =>
      { balances := balances,
        response := { httpStatus := 500, success := false,
                      message := "Internal server error" },
        statusQueries := 1 }
    | .ok r =>
      if r.success ∧ r.status = some "completed" then
        let balances2 := creditBalance balances phone amount
        { balances := balances2,
          response := { httpStatus := 200, success := true,
                        message := "Payment completed",
                        transaction_code := r.transaction_code,
                        status := some "completed",
                        balance := some (getBalance balances2 phone) },
          statusQueries := 1 }
      else if r.success ∧ r.status = some "failed" then
        { balances := balances,
          response := { httpStatus := 200, success := false,
                        message := "Payment failed", status := some "failed" },
          statusQueries := 1 }
      else
        let rest := pollLoop g phone amount balances (attempt + 1) fuel (some r)
        { rest with statusQueries := rest.statusQueries + 1 }

/-- The POST /stkpush handler of src/unnamed/part_000 lines 44-150:
presence check on phone and amount only, then the initiate call (a
rejection is passed through as HTTP 400 with the gateway body, a thrown
call becomes HTTP 500), then the polling loop. -/
def stkpush (req : StkRequest) (init : Except Unit Gw.InitResult)
    (g : Nat → Except Unit Gw.StatusResult) (balances : Balances) : StkResult :=
  if strFalsy req.phone || intFalsy req.amount then
    { balances := balances,
      response := { httpStatus := 400, success := false,
                    message := "Phone and amount are required" },
      statusQueries := 0 }
  else
    match init with
    | .error _ =>
      { balances := balances,
        response := { httpStatus := 500, success := false,
                      message := "Internal server error" },
        statusQueries := 0 }
    | .ok ir =>
      if ¬ ir.success then
        { balances := balances,
          response := { httpStatus := 400, success := ir.success,
                        message := ir.message.getD "" },
          statusQueries := 0 }
      else
        pollLoop g (req.phone.getD "") (req.amount.getD 0) balances 0 24 none

end Part0

namespace Loan

/-- A receipt record of the second file of src/unnamed/part_000 (the
loan/receipts variant).  Every field is optional because the callback
handler starts from `receipts[ref] || {}` — an empty object with every
field undefined. -/
structure Receipt where
  reference : Option String := none
  transaction_id : Option String := none
  transaction_code : Option String := none
  amount : Option Int := none
  loan_amount : Option String := none
  phone : Option String := none
  customer_name : Option String := none
  status : Option String := none
  status_note : Option String := none
deriving DecidableEq, Repr

/-- The receipts.json object, keyed by reference. -/
abbrev Receipts : Type := List (String × Receipt)

/-- Assignment `receipts[ref] = value`: replace the entry when the key
exists, append it otherwise. -/
def setReceipt : Receipts → String → Receipt → Receipts
  | [], ref, r => [(ref, r)]
  | (k, v) :: rest, ref, r =>
    if k = ref then (ref, r) :: rest else (k, v) :: setReceipt rest ref r

/-- Body of a POST /callback request (src/unnamed/part_000 second file,
lines 387-413). -/
structure CallbackBody where
  reference : String
  status : Option String := none
  transaction_code : Option String := none
deriving DecidableEq, Repr

/-- The fixed acknowledgment envelope the gateway expects. -/
structure CallbackAck where
  ResultCode : Nat
  ResultDesc : String
deriving DecidableEq, Repr

/-- The POST /callback handler (second file of src/unnamed/part_000,
lines 387-413): look up the existing receipt (or an empty object), then
unconditionally overwrite its status — `processing` when the callback
reports completed, `cancelled` otherwise — and always acknowledge with
ResultCode 0 / ResultDesc Success. -/
def callback (receipts : Receipts) (data : CallbackBody) : Receipts × CallbackAck :=
  let existing := (receipts.lookup data.reference).getD {}
  let updated : Receipt :=
    if data.status = some "completed" then
      { existing with
        status := some "processing",
        transaction_code := data.transaction_code,
        status_note := some ("✅ Payment confirmed for " ++
          (existing.phone.getD "undefined") ++ ". Your loan is being processed.") }
    else
      { existing with
        status := some "cancelled",
        status_note := some "❌ Payment failed or cancelled by user." }
  (setReceipt receipts data.reference updated,
   { ResultCode := 0, ResultDesc := "Success" })

end Loan

/-! Concrete records used as test inputs in counterexamples and
witnesses. -/

/-- A gateway status report: check succeeded, payment completed. -/
def completedReport : Gw.StatusResult :=
  { success := true, status := some "completed", transaction_code := some "QWE123" }

/-- A gateway status report: check succeeded, payment still pending. -/
def pendingReport : Gw.StatusResult :=
  { success := true, status := some "pending" }

/-- A gateway status oracle that always answers pending. -/
def gPending : Nat → Except Unit Gw.StatusResult :=
  fun _ => .ok pendingReport

/-- A payment already in the terminal status `failed`, with a checkout
request id. -/
def failedPayment1 : Server.Payment :=
  { id := "PAY_1", phone := "254712345678", amount := 500,
    reference := "ORDER_1", description := "Payment via M-Pesa",
    status := .failed, checkout_request_id := some "CR_1",
    transaction_code := none, error_message := some "Payment failed" }

/-- A freshly created pending payment. -/
def pendingPayment1 : Server.Payment :=
  Server.mkPendingPayment "PAY_2" "254712345678" 500 "ORDER_2" "Payment via M-Pesa"

/-- A well-formed /stkpush request. -/
def stkReq1 : Server.StkRequest :=
  { phone := some "254712345678", amount := some 500 }

/-- An accepted initiate response. -/
def initOk1 : Gw.InitResult :=
  { success := true, checkout_request_id := some "CR_1" }

/-- A rejected initiate response. -/
def initRejected1 : Gw.InitResult :=
  { success := false, message := some "Insufficient balance" }

/-- A /transaction/status request repeating a completed observation. -/
def txReq1 : Part0.TxStatusRequest :=
  { checkout_request_id := some "CR_1", phone := some "254712345678",
    amount := some 500 }

/-- The empty balances store (every phone at zero). -/
def zeroBalances : Part0.Balances := fun _ => 0

/-- Request classification used by claim C4: the phone field holds a
string matching 2547XXXXXXXX. -/
def phoneFieldMatches : Option String → Bool
  | none => false
  | some s => Server.phoneMatches2547 s

/-- Request classification used by claim C4: the amount field holds a
value that is positive and at most 300000. -/
def amountFieldOk : Option Int → Bool
  | none => false
  | some a => decide (0 < a) && decide (a ≤ 300000)

/-! Helper lemmas. -/

/-- After `receipts[ref] = v`, looking up `ref` finds `v`. -/
theorem Loan.lookup_setReceipt (receipts : Loan.Receipts) (ref : String) (v : Loan.Receipt) :
    (Loan.setReceipt receipts ref v).lookup ref = some v := by
  induction receipts with
  | nil => simp [Loan.setReceipt, List.lookup]
  | cons hd tl ih =>
    obtain ⟨k, w⟩ := hd
    by_cases hk : k = ref
    · simp [Loan.setReceipt, hk, List.lookup]
    · simp only [Loan.setReceipt, if_neg hk, List.lookup]
      have : (ref == k) = false := by
        simp [beq_iff_eq]
        exact fun h => hk h.symm
      simp [this, ih]

/-- The polling loop never rewrites the identity fields of the payment
record it was given: id, phone, amount and reference survive every
outcome. -/
theorem Server.pollAux_payment_fields (g : Nat → Except Unit Gw.StatusResult)
    (p : Server.Payment) :
    ∀ (fuel attempt : Nat) (last : Option Gw.StatusResult),
      (Server.pollAux g p attempt fuel last).payment.id = p.id ∧
      (Server.pollAux g p attempt fuel last).payment.phone = p.phone ∧
      (Server.pollAux g p attempt fuel last).payment.amount = p.amount ∧
      (Server.pollAux g p attempt fuel last).payment.reference = p.reference := by
  intro fuel
  induction fuel with
  | zero => intro attempt last; exact ⟨rfl, rfl, rfl, rfl⟩
  | succ n ih =>
    intro attempt last
    simp only [Server.pollAux]
    cases hstep : Server.stepAction (Server.checkPaymentStatus (g attempt)) with
    | finishCompleted => exact ⟨rfl, rfl, rfl, rfl⟩
    | finishFailed => exact ⟨rfl, rfl, rfl, rfl⟩
    | continueLoop =>
      exact ih (attempt + 1) (some (Server.checkPaymentStatus (g attempt)))

/-- The polling loop issues at most `fuel` status queries. -/
theorem Server.countQueries_pollAux_le (g : Nat → Except Unit Gw.StatusResult)
    (p : Server.Payment) :
    ∀ (fuel attempt : Nat) (last : Option Gw.StatusResult),
      Server.countQueries (Server.pollAux g p attempt fuel last).events ≤ fuel := by
  intro fuel
  induction fuel with
  | zero => intro attempt last; exact Nat.le_refl 0
  | succ n ih =>
    intro attempt last
    simp only [Server.pollAux]
    cases hstep : Server.stepAction (Server.checkPaymentStatus (g attempt)) with
    | finishCompleted => exact Nat.succ_le_succ (Nat.zero_le n)
    | finishFailed => exact Nat.succ_le_succ (Nat.zero_le n)
    | continueLoop =>
      exact Nat.succ_le_succ
        (ih (attempt + 1) (some (Server.checkPaymentStatus (g attempt))))

/-- If every attempt in the budget falls through (pending result or
failed status check), the polling loop times out: the payment is marked
`timeout` with the timeout error message, the outcome is `timedOut`, and
the trace is one query per attempt each followed by the 5-second
delay. -/
theorem Server.pollAux_timeout_of_continue (g : Nat → Except Unit Gw.StatusResult)
    (p : Server.Payment) :
    ∀ (fuel attempt : Nat) (last : Option Gw.StatusResult),
      (∀ k, k < fuel →
        Server.stepAction (Server.checkPaymentStatus (g (attempt + k))) = .continueLoop) →
      (Server.pollAux g p attempt fuel last).payment =
        { p with status := .timeout,
                 error_message := some "Payment status check timeout" } ∧
      (Server.pollAux g p attempt fuel last).outcome = .timedOut ∧
      (Server.pollAux g p attempt fuel last).events = Server.fullPollEvents attempt fuel := by
  intro fuel
  induction fuel with
  | zero => intro attempt last h; exact ⟨rfl, rfl, rfl⟩
  | succ n ih =>
    intro attempt last h
    have h0 : Server.stepAction (Server.checkPaymentStatus (g attempt)) = .continueLoop := by
      have hz := h 0 (Nat.succ_pos n)
      rwa [Nat.add_zero] at hz
    have hshift : ∀ k, k < n →
        Server.stepAction (Server.checkPaymentStatus (g (attempt + 1 + k))) = .continueLoop := by
      intro k hk
      have hs := h (k + 1) (Nat.succ_lt_succ hk)
      rwa [show attempt + (k + 1) = attempt + 1 + k by omega] at hs
    have hrest := ih (attempt + 1) (some (Server.checkPaymentStatus (g attempt))) hshift
    simp only [Server.pollAux, h0]
    refine ⟨hrest.1, hrest.2.1, ?_⟩
    rw [hrest.2.2]
    rfl

/-- When every attempt in a positive budget falls through, the
`statusResult` variable at loop exit holds the result of the last
attempt. -/
theorem Server.pollAux_lastStatus_of_continue (g : Nat → Except Unit Gw.StatusResult)
    (p : Server.Payment) :
    ∀ (fuel attempt : Nat) (last : Option Gw.StatusResult), 0 < fuel →
      (∀ k, k < fuel →
        Server.stepAction (Server.checkPaymentStatus (g (attempt + k))) = .continueLoop) →
      (Server.pollAux g p attempt fuel last).lastStatus =
        some (Server.checkPaymentStatus (g (attempt + fuel - 1))) := by
  intro fuel
  induction fuel with
  | zero => intro attempt last hpos; omega
  | succ n ih =>
    intro attempt last hpos h
    have h0 : Server.stepAction (Server.checkPaymentStatus (g attempt)) = .continueLoop := by
      have hz := h 0 (Nat.succ_pos n)
      rwa [Nat.add_zero] at hz
    simp only [Server.pollAux, h0]
    cases n with
    | zero =>
      show (Server.pollAux g p (attempt + 1) 0
          (some (Server.checkPaymentStatus (g attempt)))).lastStatus =
        some (Server.checkPaymentStatus (g (attempt + 1 - 1)))
      rw [show attempt + 1 - 1 = attempt by omega]
      rfl
    | succ m =>
      have hshift : ∀ k, k < m + 1 →
          Server.stepAction (Server.checkPaymentStatus (g (attempt + 1 + k))) =
            .continueLoop := by
        intro k hk
        have hs := h (k + 1) (Nat.succ_lt_succ hk)
        rwa [show attempt + (k + 1) = attempt + 1 + k by omega] at hs
      have hr := ih (attempt + 1) (some (Server.checkPaymentStatus (g attempt)))
        (Nat.succ_pos m) hshift
      rw [hr, show attempt + 1 + (m + 1) - 1 = attempt + (m + 1 + 1) - 1 by omega]

/-- The `statusResult` value carried into the polling loop influences
only the `lastStatus` component of the result (and that only when the
fuel is already exhausted): payment, outcome and events are the same for
any two carried values. -/
theorem Server.pollAux_last_irrelevant (g : Nat → Except Unit Gw.StatusResult)
    (p : Server.Payment) (attempt fuel : Nat) (l1 l2 : Option Gw.StatusResult) :
    (Server.pollAux g p attempt fuel l1).payment =
      (Server.pollAux g p attempt fuel l2).payment ∧
    (Server.pollAux g p attempt fuel l1).outcome =
      (Server.pollAux g p attempt fuel l2).outcome ∧
    (Server.pollAux g p attempt fuel l1).events =
      (Server.pollAux g p attempt fuel l2).events := by
  cases fuel with
  | zero => exact ⟨rfl, rfl, rfl⟩
  | succ n => exact ⟨rfl, rfl, rfl⟩

/-- Navigation through the validation prologue of /stkpush: for a
request whose phone matches the required format and whose amount is in
bounds, the handler is its post-validation body. -/
theorem Server.stkpush_valid_eq
    (req : Server.StkRequest) (p : String) (a : Int) (paymentId reference : String)
    (init : Except Unit Gw.InitResult) (g : Nat → Except Unit Gw.StatusResult)
    (store : List Server.Payment)
    (hp : req.phone = some p) (hmatch : Server.phoneMatches2547 p = true)
    (ha : req.amount = some a) (h0 : 0 < a) (h300 : a ≤ 300000) :
    Server.stkpush req paymentId reference init g store =
      Server.stkpushCore p a paymentId reference req.description init g store := by
  have hpne : p ≠ "" := by
    intro he
    rw [he] at hmatch
    exact absurd hmatch (by decide)
  have hane : a ≠ 0 := by omega
  unfold Server.stkpush
  rw [hp, ha]
  simp only [Option.getD_some]
  rw [if_neg (by simp [strFalsy, intFalsy, hpne, hane])]
  rw [if_neg (not_not_intro hmatch)]
  rw [if_neg (by omega : ¬ (a ≤ 0 ∨ a > 300000))]

/-! Claim C1. -/

/-- C1 counterexample: the claim is false on the code.  A Payment whose
status is the terminal `failed` is overwritten to `completed` by a manual
check-status request whose status check succeeds and reports completed —
the check-status handler of src/server.js lines 346-356 applies the
report without consulting the current status. -/
theorem terminal_not_final_cx :
    failedPayment1.status = Server.PayStatus.failed ∧
    (Server.checkStatusRoute "PAY_1" (.ok completedReport) [failedPayment1]).store =
      [{ failedPayment1 with
         status := Server.PayStatus.completed,
         transaction_code := some "QWE123" }] := by
  decide

/-- C1 amended: terminal statuses are not final.  The manual check-status
route applies a successful gateway report unconditionally: when the
status check succeeds and reports completed (resp. failed) the Payment
status becomes completed (resp. failed) whatever it was before, and the
status is unchanged only when the status check fails or reports a
non-terminal status.  The callback handler likewise always overwrites the
stored receipt status — `processing` when the callback reports completed,
`cancelled` otherwise — regardless of any previously recorded terminal
status. -/
theorem status_overwrite_characterization :
    (∀ (p : Server.Payment) (r : Gw.StatusResult),
      (Server.applyStatusResult p r).status =
        (match Server.stepAction r with
         | .finishCompleted => Server.PayStatus.completed
         | .finishFailed => Server.PayStatus.failed
         | .continueLoop => p.status)) ∧
    (∀ (receipts : Loan.Receipts) (data : Loan.CallbackBody),
      ∃ rec, ((Loan.callback receipts data).1).lookup data.reference = some rec ∧
        rec.status =
          some (if data.status = some "completed" then "processing" else "cancelled")) := by
  constructor
  · intro p r
    unfold Server.applyStatusResult
    cases Server.stepAction r <;> rfl
  · intro receipts data
    unfold Loan.callback
    by_cases h : data.status = some "completed"
    · refine ⟨_, Loan.lookup_setReceipt _ _ _, ?_⟩
      simp [h]
    · refine ⟨_, Loan.lookup_setReceipt _ _ _, ?_⟩
      simp [h]

/-! Claim C2. -/

/-- C2: the code is wrong.  The balance credit is not idempotent: every
completed observation through POST /transaction/status calls
creditBalance again (src/unnamed/part_000 line 179, despite the comment
"Update balance if not already credited").  Starting from an empty
store, the same completed status query run twice for phone 254712345678
and amount 500 leaves the balance at 1000, not 500. -/
theorem transactionStatus_double_credit :
    ((Part0.transactionStatus txReq1 (.ok completedReport) (fun _ => 0)).1
      "254712345678" = 500) ∧
    ((Part0.transactionStatus txReq1 (.ok completedReport)
        (Part0.transactionStatus txReq1 (.ok completedReport) (fun _ => 0)).1).1
      "254712345678" = 1000) := by
  decide

/-! Claim C3. -/

/-- C3 counterexample: the claim is false on the code.  The balance is
adjusted directly from client-supplied input with no validation: a
POST /transaction/status request carrying amount -50, observed as
completed, drives the balance of the given phone to -50 — negative. -/
theorem negative_balance_cx :
    ((Part0.transactionStatus
        { checkout_request_id := some "CR_2", phone := some "254700000001",
          amount := some (-50) }
        (.ok { success := true, status := some "completed" })
        (fun _ => 0)).1 "254700000001" = -50) ∧ ((-50 : Int) < 0) := by
  decide

/-- C3 amended: the POST /transaction/status route mutates balances only
through creditBalance, which adds the client-supplied request amount to
the given phone during a successful completed observation (so the
mutation is tied to a completed transaction report, but the amount comes
unvalidated from client input).  Consequently balances stay non-negative
only under the extra assumption that every client-supplied amount is
non-negative. -/
theorem balance_mutation_characterization
    (req : Part0.TxStatusRequest) (call : Except Unit Gw.StatusResult)
    (b : Part0.Balances) :
    ((∀ q, 0 ≤ b q) → (∀ a, req.amount = some a → 0 ≤ a) →
      ∀ q, 0 ≤ (Part0.transactionStatus req call b).1 q) ∧
    ((Part0.transactionStatus req call b).1 = b ∨
      ∃ p a r, req.phone = some p ∧ req.amount = some a ∧ call = .ok r ∧
        r.success = true ∧ r.status = some "completed" ∧
        (Part0.transactionStatus req call b).1 = Part0.creditBalance b p a) := by
  unfold Part0.transactionStatus
  by_cases h1 : strFalsy req.checkout_request_id
  · rw [if_pos h1]
    exact ⟨fun hb _ q => hb q, Or.inl rfl⟩
  · rw [if_neg h1]
    cases call with
    | error e => exact ⟨fun hb _ q => hb q, Or.inl rfl⟩
    | ok sr =>
      dsimp only
      by_cases h2 : sr.success
      · rw [if_pos h2]
        by_cases h3 : sr.status = some "completed" ∧
            ¬ strFalsy req.phone ∧ ¬ intFalsy req.amount
        · rw [if_pos h3]
          obtain ⟨hc, hp, ha⟩ := h3
          obtain ⟨p, hreq⟩ : ∃ p, req.phone = some p := by
            cases hh : req.phone with
            | none => rw [hh] at hp; simp [strFalsy] at hp
            | some p => exact ⟨p, rfl⟩
          obtain ⟨a, hreqa⟩ : ∃ a, req.amount = some a := by
            cases hh : req.amount with
            | none => rw [hh] at ha; simp [intFalsy] at ha
            | some a => exact ⟨a, rfl⟩
          rw [hreq, hreqa]
          constructor
          · intro hb hamt q
            show 0 ≤ Part0.creditBalance b ((some p).getD "") ((some a).getD 0) q
            unfold Part0.creditBalance
            by_cases hq : q = p
            · simp only [Option.getD_some, hq, if_pos rfl]
              exact add_nonneg (hb p) (hamt a rfl)
            · simp only [Option.getD_some, if_neg hq]
              exact hb q
          · exact Or.inr ⟨p, a, sr, rfl, rfl, rfl, h2, hc, rfl⟩
        · rw [if_neg h3]
          exact ⟨fun hb _ q => hb q, Or.inl rfl⟩
      · rw [if_neg h2]
        exact ⟨fun hb _ q => hb q, Or.inl rfl⟩

/-- C3 amended witness: the characterization applied at a concrete
non-negative starting store and request. -/
theorem balance_mutation_characterization_witness :
    ((∀ q, 0 ≤ zeroBalances q) →
      (∀ a, txReq1.amount = some a → 0 ≤ a) →
      ∀ q, 0 ≤ (Part0.transactionStatus txReq1 (.ok completedReport) zeroBalances).1 q) ∧
    ((Part0.transactionStatus txReq1 (.ok completedReport) zeroBalances).1 =
        zeroBalances ∨
      ∃ p a r, txReq1.phone = some p ∧ txReq1.amount = some a ∧
        (Except.ok completedReport : Except Unit Gw.StatusResult) = .ok r ∧
        r.success = true ∧ r.status = some "completed" ∧
        (Part0.transactionStatus txReq1 (.ok completedReport) zeroBalances).1 =
          Part0.creditBalance zeroBalances p a) :=
  balance_mutation_characterization txReq1 (.ok completedReport) zeroBalances

/-! Claim C9. -/

/-- C9: every POST /callback request is acknowledged with the fixed body
ResultCode 0 / ResultDesc "Success", whatever the callback reports and
whether or not the referenced receipt exists. -/
theorem callback_fixed_ack (receipts : Loan.Receipts) (data : Loan.CallbackBody) :
    (Loan.callback receipts data).2 = { ResultCode := 0, ResultDesc := "Success" } :=
  rfl

/-! Claim C10. -/

/-- C10: a POST /transaction/status request lacking the phone field or
the amount field leaves the balances store (the only state this route
can touch) unchanged, even when the gateway reports completed, because
the credit branch requires both fields to be truthy. -/
theorem transactionStatus_missing_fields_frame
    (req : Part0.TxStatusRequest) (call : Except Unit Gw.StatusResult)
    (b : Part0.Balances) (h : req.phone = none ∨ req.amount = none) :
    (Part0.transactionStatus req call b).1 = b := by
  unfold Part0.transactionStatus
  by_cases h1 : strFalsy req.checkout_request_id
  · rw [if_pos h1]
  · rw [if_neg h1]
    cases call with
    | error e => rfl
    | ok sr =>
      dsimp only
      by_cases h2 : sr.success
      · rw [if_pos h2]
        have hcond : ¬ (sr.status = some "completed" ∧
            ¬ strFalsy req.phone ∧ ¬ intFalsy req.amount) := by
          rintro ⟨-, hp, ha⟩
          cases h with
          | inl hh => exact hp (by simp [hh, strFalsy])
          | inr hh => exact ha (by simp [hh, intFalsy])
        rw [if_neg hcond]
      · rw [if_neg h2]

/-- C10 witness: concrete request with the phone field absent. -/
theorem transactionStatus_missing_fields_frame_witness :
    (Part0.transactionStatus
      { checkout_request_id := some "CR_1", phone := none, amount := some 500 }
      (.ok completedReport) (fun _ => 0)).1 = (fun _ => 0) :=
  transactionStatus_missing_fields_frame _ _ _ (Or.inl rfl)

/-! Claim C4. -/

/-- C4: a /stkpush request whose phone field does not hold a string
matching 2547XXXXXXXX, or whose amount field does not hold a value in
(0, 300000], is rejected with HTTP 400 and success:false before any
Payment record is created and before the initiate call: the payments
store is returned unchanged, the initiate call is never issued, and no
status query or delay happens. -/
theorem stkpush_validation_rejects
    (req : Server.StkRequest) (paymentId reference : String)
    (init : Except Unit Gw.InitResult) (g : Nat → Except Unit Gw.StatusResult)
    (store : List Server.Payment)
    (h : phoneFieldMatches req.phone = false ∨ amountFieldOk req.amount = false) :
    (Server.stkpush req paymentId reference init g store).store = store ∧
    (Server.stkpush req paymentId reference init g store).response.httpStatus = 400 ∧
    (Server.stkpush req paymentId reference init g store).response.success = false ∧
    (Server.stkpush req paymentId reference init g store).initiateCalled = false ∧
    (Server.stkpush req paymentId reference init g store).events = [] := by
  unfold Server.stkpush
  by_cases hm : (strFalsy req.phone || intFalsy req.amount) = true
  · rw [if_pos hm]
    exact ⟨rfl, rfl, rfl, rfl, rfl⟩
  · rw [if_neg hm]
    rw [Bool.or_eq_true] at hm
    push_neg at hm
    obtain ⟨hps, has⟩ := hm
    obtain ⟨p, hp⟩ : ∃ p, req.phone = some p := by
      cases hh : req.phone with
      | none => rw [hh] at hps; exact absurd rfl hps
      | some p => exact ⟨p, rfl⟩
    obtain ⟨a, ha⟩ : ∃ a, req.amount = some a := by
      cases hh : req.amount with
      | none => rw [hh] at has; exact absurd rfl has
      | some a => exact ⟨a, rfl⟩
    rw [hp, ha]
    simp only [Option.getD_some]
    by_cases hmatch : Server.phoneMatches2547 p = true
    · rw [if_neg (not_not_intro hmatch)]
      have hamount : amountFieldOk (some a) = false := by
        rcases h with hl | hr
        · rw [hp] at hl
          simp only [phoneFieldMatches] at hl
          rw [hmatch] at hl
          exact absurd hl (by simp)
        · rw [ha] at hr
          exact hr
      have hbad : a ≤ 0 ∨ a > 300000 := by
        by_contra hcon
        push_neg at hcon
        obtain ⟨h1, h2⟩ := hcon
        simp [amountFieldOk, h1, h2] at hamount
      rw [if_pos hbad]
      exact ⟨rfl, rfl, rfl, rfl, rfl⟩
    · rw [if_pos hmatch]
      exact ⟨rfl, rfl, rfl, rfl, rfl⟩

/-- C4 witness: a request with the local-format phone 0712345678 is
rejected and leaves the empty store empty. -/
theorem stkpush_validation_rejects_witness :
    phoneFieldMatches (some "0712345678") = false ∧
    ((Server.stkpush { phone := some "0712345678", amount := some 500 } "PAY_1" "ORDER_1"
        (.error ()) (fun _ => .error ()) []).store = [] ∧
     (Server.stkpush { phone := some "0712345678", amount := some 500 } "PAY_1" "ORDER_1"
        (.error ()) (fun _ => .error ()) []).response.httpStatus = 400 ∧
     (Server.stkpush { phone := some "0712345678", amount := some 500 } "PAY_1" "ORDER_1"
        (.error ()) (fun _ => .error ()) []).response.success = false ∧
     (Server.stkpush { phone := some "0712345678", amount := some 500 } "PAY_1" "ORDER_1"
        (.error ()) (fun _ => .error ()) []).initiateCalled = false ∧
     (Server.stkpush { phone := some "0712345678", amount := some 500 } "PAY_1" "ORDER_1"
        (.error ()) (fun _ => .error ()) []).events = []) :=
  ⟨by decide,
   stkpush_validation_rejects { phone := some "0712345678", amount := some 500 }
     "PAY_1" "ORDER_1" (.error ()) (fun _ => .error ()) [] (Or.inl (by decide))⟩

/-! Claim C5. -/

/-- C5: once the initiate call is accepted, the polling loop makes at
most 24 status queries; and when no attempt yields a terminal result
the loop runs all 24 attempts — each query followed by the fixed
5-second delay — after which the Payment is recorded as `timeout` and
the handler answers failure with the last observed status payload
attached. -/
theorem stkpush_poll_budget
    (req : Server.StkRequest) (p : String) (a : Int) (paymentId reference : String)
    (ir : Gw.InitResult) (g : Nat → Except Unit Gw.StatusResult)
    (store : List Server.Payment)
    (hp : req.phone = some p) (hmatch : Server.phoneMatches2547 p = true)
    (ha : req.amount = some a) (h0 : 0 < a) (h300 : a ≤ 300000)
    (hsucc : ir.success = true) :
    Server.countQueries (Server.stkpush req paymentId reference (.ok ir) g store).events ≤ 24 ∧
    ((∀ k, k < 24 → Server.stepAction (Server.checkPaymentStatus (g k)) =
        Server.StepAction.continueLoop) →
      (Server.stkpush req paymentId reference (.ok ir) g store).store =
        store ++ [{ { Server.mkPendingPayment paymentId p a reference req.description with
                      checkout_request_id := ir.checkout_request_id } with
                    status := Server.PayStatus.timeout,
                    error_message := some "Payment status check timeout" }] ∧
      (Server.stkpush req paymentId reference (.ok ir) g store).response.httpStatus = 200 ∧
      (Server.stkpush req paymentId reference (.ok ir) g store).response.success = false ∧
      (Server.stkpush req paymentId reference (.ok ir) g store).response.message =
        "Payment status check timeout. Please check manually." ∧
      (Server.stkpush req paymentId reference (.ok ir) g store).response.lastStatus =
        some (Server.checkPaymentStatus (g 23)) ∧
      (Server.stkpush req paymentId reference (.ok ir) g store).events =
        Server.fullPollEvents 0 24) := by
  rw [Server.stkpush_valid_eq req p a paymentId reference (.ok ir) g store hp hmatch ha h0 h300]
  simp only [Server.stkpushCore]
  rw [if_neg (not_not_intro hsucc)]
  constructor
  · exact Server.countQueries_pollAux_le g _ 24 0 none
  · intro hcont
    have hcont0 : ∀ k, k < 24 → Server.stepAction (Server.checkPaymentStatus (g (0 + k))) =
        Server.StepAction.continueLoop := by
      intro k hk
      rw [Nat.zero_add]
      exact hcont k hk
    have hA := Server.pollAux_timeout_of_continue g
      { Server.mkPendingPayment paymentId p a reference req.description with
        checkout_request_id := ir.checkout_request_id } 24 0 none hcont0
    have hB := Server.pollAux_lastStatus_of_continue g
      { Server.mkPendingPayment paymentId p a reference req.description with
        checkout_request_id := ir.checkout_request_id } 24 0 none (by omega) hcont0
    rw [hA.2.1]
    dsimp only
    rw [hA.1, hA.2.2, hB]
    exact ⟨rfl, rfl, rfl, rfl, rfl, rfl⟩

/-- C5 witness: with a gateway that always answers pending, all 24
attempts run, the payment times out and the response carries the last
pending payload. -/
theorem stkpush_poll_budget_witness :
    Server.countQueries
      (Server.stkpush stkReq1 "PAY_3" "ORDER_3" (.ok initOk1) gPending []).events ≤ 24 ∧
    (Server.stkpush stkReq1 "PAY_3" "ORDER_3" (.ok initOk1) gPending []).store =
      [{ { Server.mkPendingPayment "PAY_3" "254712345678" 500 "ORDER_3"
             "Payment via M-Pesa" with
           checkout_request_id := some "CR_1" } with
         status := Server.PayStatus.timeout,
         error_message := some "Payment status check timeout" }] ∧
    (Server.stkpush stkReq1 "PAY_3" "ORDER_3" (.ok initOk1) gPending
      []).response.success = false ∧
    (Server.stkpush stkReq1 "PAY_3" "ORDER_3" (.ok initOk1) gPending
      []).response.lastStatus = some pendingReport ∧
    (Server.stkpush stkReq1 "PAY_3" "ORDER_3" (.ok initOk1) gPending []).events =
      Server.fullPollEvents 0 24 := by
  have H := stkpush_poll_budget stkReq1 "254712345678" 500 "PAY_3" "ORDER_3" initOk1
    gPending [] rfl (by decide) rfl (by decide) (by decide) rfl
  have H2 := H.2 (by decide)
  exact ⟨H.1, H2.1, H2.2.2.1, H2.2.2.2.2.1, H2.2.2.2.2.2⟩

/-! Claim C6. -/

/-- C6: when the initiate gateway call answers success:false, the
Payment is recorded as `failed` with the gateway message as its
error_message, the handler answers HTTP 400 with success:false carrying
that message, no status query or delay happens, and (in the
balance-tracking variant) the balances store is untouched with zero
status queries. -/
theorem stkpush_initiate_rejected
    (req : Server.StkRequest) (p : String) (a : Int) (paymentId reference : String)
    (ir : Gw.InitResult) (g : Nat → Except Unit Gw.StatusResult)
    (store : List Server.Payment)
    (hp : req.phone = some p) (hmatch : Server.phoneMatches2547 p = true)
    (ha : req.amount = some a) (h0 : 0 < a) (h300 : a ≤ 300000)
    (hir : ir.success = false) :
    (Server.stkpush req paymentId reference (.ok ir) g store).store =
      store ++ [{ Server.mkPendingPayment paymentId p a reference req.description with
                  status := Server.PayStatus.failed,
                  error_message := some (ir.message.getD "STK Push initiation failed") }] ∧
    (Server.stkpush req paymentId reference (.ok ir) g store).response.httpStatus = 400 ∧
    (Server.stkpush req paymentId reference (.ok ir) g store).response.success = false ∧
    (Server.stkpush req paymentId reference (.ok ir) g store).response.message =
      ir.message.getD "STK Push initiation failed" ∧
    (Server.stkpush req paymentId reference (.ok ir) g store).events = [] ∧
    (∀ (req0 : Part0.StkRequest) (g0 : Nat → Except Unit Gw.StatusResult)
        (b : Part0.Balances),
      (Part0.stkpush req0 (.ok ir) g0 b).balances = b ∧
      (Part0.stkpush req0 (.ok ir) g0 b).statusQueries = 0) := by
  rw [Server.stkpush_valid_eq req p a paymentId reference (.ok ir) g store hp hmatch ha h0 h300]
  simp only [Server.stkpushCore]
  rw [if_pos (show ¬ ir.success = true by simp [hir])]
  refine ⟨rfl, rfl, rfl, rfl, rfl, ?_⟩
  intro req0 g0 b
  simp only [Part0.stkpush]
  by_cases hq : (strFalsy req0.phone || intFalsy req0.amount) = true
  · rw [if_pos hq]
    exact ⟨rfl, rfl⟩
  · rw [if_neg hq]
    rw [if_pos (show ¬ ir.success = true by simp [hir])]
    exact ⟨rfl, rfl⟩

/-- C6 witness: a rejected initiate for a valid request leaves a failed
record carrying the gateway message, and the balances store of the
balance-tracking variant untouched. -/
theorem stkpush_initiate_rejected_witness :
    (Server.stkpush stkReq1 "PAY_1" "ORDER_1" (.ok initRejected1) gPending []).store =
      [{ Server.mkPendingPayment "PAY_1" "254712345678" 500 "ORDER_1"
           "Payment via M-Pesa" with
         status := Server.PayStatus.failed,
         error_message := some "Insufficient balance" }] ∧
    (Server.stkpush stkReq1 "PAY_1" "ORDER_1" (.ok initRejected1) gPending
      []).response.httpStatus = 400 ∧
    (Server.stkpush stkReq1 "PAY_1" "ORDER_1" (.ok initRejected1) gPending []).events = [] ∧
    (Part0.stkpush { phone := some "254712345678", amount := some 500 }
      (.ok initRejected1) gPending zeroBalances).balances = zeroBalances ∧
    (Part0.stkpush { phone := some "254712345678", amount := some 500 }
      (.ok initRejected1) gPending zeroBalances).statusQueries = 0 := by
  have H := stkpush_initiate_rejected stkReq1 "254712345678" 500 "PAY_1" "ORDER_1"
    initRejected1 gPending [] rfl (by decide) rfl (by decide) (by decide) rfl
  have HP := H.2.2.2.2.2 { phone := some "254712345678", amount := some 500 }
    gPending zeroBalances
  exact ⟨H.1, H.2.1, H.2.2.2.2.1, HP.1, HP.2⟩

/-! Claim C7. -/

/-- C7: a status check whose result has success:false — which is exactly
what the client makes of a thrown network error — is never terminal:
the loop body classifies it as continue (just like a successful pending
report), the payment record is not touched on that attempt, and the loop
moves on to the next attempt; and since the carried `statusResult`
payload does not influence the loop, continuing after the failed check
behaves exactly as continuing after a pending report. -/
theorem poll_non_success_retry (r : Gw.StatusResult) (hr : r.success = false) :
    Server.stepAction r = Server.StepAction.continueLoop ∧
    Server.stepAction pendingReport = Server.StepAction.continueLoop ∧
    Server.checkPaymentStatus (.error ()) =
      { success := false, message := some "Status check failed" } ∧
    ∀ (g : Nat → Except Unit Gw.StatusResult) (p : Server.Payment)
      (attempt fuel : Nat) (last : Option Gw.StatusResult),
      Server.checkPaymentStatus (g attempt) = r →
      ((Server.pollAux g p attempt (fuel + 1) last).payment =
        (Server.pollAux g p (attempt + 1) fuel (some r)).payment ∧
       (Server.pollAux g p attempt (fuel + 1) last).outcome =
        (Server.pollAux g p (attempt + 1) fuel (some r)).outcome ∧
       (Server.pollAux g p attempt (fuel + 1) last).events =
        Server.PollEvent.query attempt :: Server.PollEvent.delay 5 ::
          (Server.pollAux g p (attempt + 1) fuel (some r)).events ∧
       (Server.pollAux g p (attempt + 1) fuel (some r)).payment =
        (Server.pollAux g p (attempt + 1) fuel (some pendingReport)).payment ∧
       (Server.pollAux g p (attempt + 1) fuel (some r)).outcome =
        (Server.pollAux g p (attempt + 1) fuel (some pendingReport)).outcome) := by
  have h1 : ¬(r.success = true ∧ r.status = some "completed") := by
    rintro ⟨hs, -⟩
    rw [hr] at hs
    exact Bool.noConfusion hs
  have h2 : ¬(r.success = true ∧ r.status = some "failed") := by
    rintro ⟨hs, -⟩
    rw [hr] at hs
    exact Bool.noConfusion hs
  have hstep : Server.stepAction r = Server.StepAction.continueLoop := by
    unfold Server.stepAction
    rw [if_neg h1, if_neg h2]
  refine ⟨hstep, by decide, rfl, ?_⟩
  intro g p attempt fuel last hg
  have hirr := Server.pollAux_last_irrelevant g p (attempt + 1) fuel
    (some r) (some pendingReport)
  refine ⟨?_, ?_, ?_, hirr.1, hirr.2.1⟩
  · simp only [Server.pollAux, hg, hstep]
  · simp only [Server.pollAux, hg, hstep]
  · simp only [Server.pollAux, hg, hstep]

/-- C7 witness: a failed status check at attempt 0 continues into
attempt 1 without touching the payment. -/
theorem poll_non_success_retry_witness :
    Server.stepAction { success := false, message := some "Status check failed" } =
      Server.StepAction.continueLoop ∧
    (Server.pollAux (fun _ => .error ()) pendingPayment1 0 3 none).payment =
      (Server.pollAux (fun _ => .error ()) pendingPayment1 1 2
        (some { success := false, message := some "Status check failed" })).payment := by
  have H := poll_non_success_retry
    { success := false, message := some "Status check failed" } rfl
  exact ⟨H.1, (H.2.2.2 (fun _ => .error ()) pendingPayment1 0 2 none rfl).1⟩

/-! Claim C8. -/

/-- C8: for a request that passes validation, the pending Payment record
is appended to the store before the initiate call: whatever the gateway
does (throw, reject or accept) the final store is the old store plus one
record with the generated id and the request data; and when the initiate
call throws, the handler answers HTTP 500 while the record remains
exactly the pending record. -/
theorem stkpush_pending_before_initiate
    (req : Server.StkRequest) (p : String) (a : Int) (paymentId reference : String)
    (g : Nat → Except Unit Gw.StatusResult) (store : List Server.Payment)
    (hp : req.phone = some p) (hmatch : Server.phoneMatches2547 p = true)
    (ha : req.amount = some a) (h0 : 0 < a) (h300 : a ≤ 300000) :
    (∀ init, ∃ p2,
      (Server.stkpush req paymentId reference init g store).store = store ++ [p2] ∧
      p2.id = paymentId ∧ p2.phone = p ∧ p2.amount = a ∧ p2.reference = reference) ∧
    ((Server.stkpush req paymentId reference (.error ()) g store).store =
      store ++ [Server.mkPendingPayment paymentId p a reference req.description] ∧
     (Server.mkPendingPayment paymentId p a reference req.description).status =
       Server.PayStatus.pending ∧
     (Server.stkpush req paymentId reference (.error ()) g store).response.httpStatus =
       500) := by
  constructor
  · intro init
    rw [Server.stkpush_valid_eq req p a paymentId reference init g store hp hmatch ha h0 h300]
    cases init with
    | error e =>
      exact ⟨Server.mkPendingPayment paymentId p a reference req.description,
        rfl, rfl, rfl, rfl, rfl⟩
    | ok ir =>
      simp only [Server.stkpushCore]
      by_cases hs : ir.success = true
      · rw [if_neg (not_not_intro hs)]
        have hf := Server.pollAux_payment_fields g
          { Server.mkPendingPayment paymentId p a reference req.description with
            checkout_request_id := ir.checkout_request_id } 24 0 none
        exact ⟨_, rfl, hf.1, hf.2.1, hf.2.2.1, hf.2.2.2⟩
      · rw [if_pos hs]
        exact ⟨_, rfl, rfl, rfl, rfl, rfl⟩
  · rw [Server.stkpush_valid_eq req p a paymentId reference (.error ())
      g store hp hmatch ha h0 h300]
    exact ⟨rfl, rfl, rfl⟩

/-- C8 witness: with a throwing initiate call, the pending record for a
valid request is in the store and the handler answers HTTP 500. -/
theorem stkpush_pending_before_initiate_witness :
    (Server.stkpush stkReq1 "PAY_4" "ORDER_4" (.error ()) gPending []).store =
      [Server.mkPendingPayment "PAY_4" "254712345678" 500 "ORDER_4" "Payment via M-Pesa"] ∧
    (Server.mkPendingPayment "PAY_4" "254712345678" 500 "ORDER_4"
      "Payment via M-Pesa").status = Server.PayStatus.pending ∧
    (Server.stkpush stkReq1 "PAY_4" "ORDER_4" (.error ()) gPending
      []).response.httpStatus = 500 := by
  have H := stkpush_pending_before_initiate stkReq1 "254712345678" 500 "PAY_4" "ORDER_4"
    gPending [] rfl (by decide) rfl (by decide) (by decide)
  exact ⟨H.2.1, H.2.2.1, H.2.2.2⟩
